import Mathlib

/-!
Verification development for the interviewbot conversation core.

The definitions below are a shallow embedding of the session-lifecycle /
audio-reassembly subsystem of the repository:

* `ElevenLabsService` (the WebSocket conversational client): its audio chunk
  buffer (`audioChunks`, `checkAndPlayAudioChunks`, `concatenateAudioChunks`),
  its message-send path (`sendMessage`), its reconnect policy (`reconnect`,
  the `onclose`/`onerror`/`onopen` handlers), and `clearConversation`.
* `ConversationService.endConversation` (the graceful-close and
  artifact-retrieval path).

Byte buffers (`ArrayBuffer`) are modelled as `List Nat`; wall-clock instants
(`Date.now()` values, milliseconds) as `Nat`; WebSocket close codes as `Nat`.
External fetches are passed in as `Option` parameters (`none` = the HTTP call
failed / was not ok).
-/

namespace InterviewBot

/-- An audio chunk as stored by the service: decoded byte payload plus the
`event_id` carried by the `audio` WebSocket event. -/
structure AudioChunk where
  buffer : List Nat
  eventId : Nat
deriving DecidableEq

/-- The comparator used by `concatenateAudioChunks`:
`chunks.sort((a, b) => a.eventId - b.eventId)` orders chunks by ascending
event id. -/
def chunkLe (a b : AudioChunk) : Prop := a.eventId ≤ b.eventId

instance : DecidableRel chunkLe := fun a b => Nat.decLe a.eventId b.eventId

instance : IsTotal AudioChunk chunkLe := ⟨fun a b => Nat.le_total a.eventId b.eventId⟩

instance : IsTrans AudioChunk chunkLe := ⟨fun _ _ _ h h2 => Nat.le_trans h h2⟩

/-- `concatenateAudioChunks` (ElevenLabsService): sorts the chunks by event id
ascending and copies each chunk's bytes into one buffer in that order. -/
def concatenateAudioChunks (chunks : List AudioChunk) : List Nat :=
  ((chunks.insertionSort chunkLe).map AudioChunk.buffer).flatten

/-- Chunk-buffer state of the service: the pending chunk set (in arrival
order), `lastEventId` (`-1` after a flush), and `lastChunkTime` (the
`Date.now()` of the last accepted chunk). -/
structure BufferState where
  audioChunks : List AudioChunk
  lastEventId : Int
  lastChunkTime : Nat
deriving DecidableEq

/-- Outcome of one invocation of `checkAndPlayAudioChunks`: it either resolves
the pending request with the concatenated buffer, rejects it with the
empty-audio error, or schedules another check 100 ms later. -/
inductive FlushOutcome where
  | resolved (buffer : List Nat)
  | rejectedEmpty
  | rescheduled
deriving DecidableEq

/-- Whether an outcome is a flush (either resolution or empty-audio
rejection), as opposed to merely re-arming the 100 ms poll timer. -/
def FlushOutcome.flushes : FlushOutcome → Bool
  | .resolved _ => true
  | .rejectedEmpty => true
  | .rescheduled => false

/-- `checkAndPlayAudioChunks` (ElevenLabsService): when the pending set is
non-empty and at least 500 ms have elapsed since the last chunk, concatenate
the chunks (sorted by event id); resolve the pending request when the result
has bytes, otherwise reject with the empty-audio error; in both cases clear
the pending set and reset `lastEventId` to `-1`.  Otherwise set a timeout to
check again. -/
def checkAndPlayAudioChunks (now : Nat) (s : BufferState) : FlushOutcome × BufferState :=
  if 0 < s.audioChunks.length ∧ 500 ≤ now - s.lastChunkTime then
    let audioBuffer := concatenateAudioChunks s.audioChunks
    if 0 < audioBuffer.length then
      (.resolved audioBuffer, { s with audioChunks := [], lastEventId := -1 })
    else
      (.rejectedEmpty, { s with audioChunks := [], lastEventId := -1 })
  else
    (.rescheduled, s)

/-- The `audio` branch of the WebSocket `onmessage` handler: a chunk whose
decoded payload is empty is dropped (`break` before the push); otherwise the
chunk is appended to the pending set and `lastEventId` / `lastChunkTime` are
updated.  (The handler then calls `checkAndPlayAudioChunks`, which — since the
elapsed time is `now - now = 0 < 500` — only re-arms the poll timer and leaves
this state unchanged.) -/
def handleAudioEvent (now : Nat) (eventId : Nat) (payload : List Nat)
    (s : BufferState) : BufferState :=
  if payload.length = 0 then s
  else
    { audioChunks := s.audioChunks ++ [{ buffer := payload, eventId := eventId }],
      lastEventId := Int.ofNat eventId,
      lastChunkTime := now }

/-! ### Helper lemmas about sorting and flushing -/

/-- Two permutations that are both sorted by event id, with pairwise distinct
event ids, are equal as lists. -/
lemma eq_of_perm_of_sorted_of_distinct {l1 l2 : List AudioChunk} (hp : l1.Perm l2)
    (hd : l1.Pairwise (fun a b => a.eventId ≠ b.eventId))
    (hs1 : List.Sorted chunkLe l1) (hs2 : List.Sorted chunkLe l2) : l1 = l2 := by
  induction l1 generalizing l2 with
  | nil => exact (List.perm_nil.mp hp.symm).symm
  | cons a t1 ih =>
    cases l2 with
    | nil => exact absurd (List.perm_nil.mp hp) (by simp)
    | cons b t2 =>
      have hab : a = b := by
        have ha2 : a ∈ b :: t2 := hp.subset (List.mem_cons_self a t1)
        rcases List.mem_cons.mp ha2 with h | hat2
        · exact h
        · have hb1 : b ∈ a :: t1 := hp.symm.subset (List.mem_cons_self b t2)
          rcases List.mem_cons.mp hb1 with h | hbt1
          · exact h.symm
          · have h1 : chunkLe a b := (List.sorted_cons.mp hs1).1 b hbt1
            have h2 : chunkLe b a := (List.sorted_cons.mp hs2).1 a hat2
            have hne : a.eventId ≠ b.eventId := (List.pairwise_cons.mp hd).1 b hbt1
            exact absurd (Nat.le_antisymm h1 h2) hne
      subst hab
      have ht : t1 = t2 :=
        ih hp.cons_inv (List.pairwise_cons.mp hd).2
          (List.sorted_cons.mp hs1).2 (List.sorted_cons.mp hs2).2
      rw [ht]

/-- With pairwise distinct event ids, the service's sort sends any arrival
order to the unique ascending-id ordering. -/
lemma insertionSort_eq_of_perm_sorted {l srt : List AudioChunk}
    (hd : l.Pairwise (fun a b => a.eventId ≠ b.eventId))
    (hperm : l.Perm srt) (hsorted : List.Sorted chunkLe srt) :
    l.insertionSort chunkLe = srt := by
  have hd2 : (l.insertionSort chunkLe).Pairwise (fun a b => a.eventId ≠ b.eventId) :=
    ((List.perm_insertionSort chunkLe l).pairwise_iff
      (fun {_ _} h => Ne.symm h)).mpr hd
  exact eq_of_perm_of_sorted_of_distinct
    ((List.perm_insertionSort chunkLe l).trans hperm) hd2
    (List.sorted_insertionSort chunkLe l) hsorted

/-- Distinct event ids let the concatenation forget the arrival order. -/
lemma concatenateAudioChunks_eq_of_perm {l srt : List AudioChunk}
    (hd : l.Pairwise (fun a b => a.eventId ≠ b.eventId))
    (hperm : l.Perm srt) (hsorted : List.Sorted chunkLe srt) :
    concatenateAudioChunks l = (srt.map AudioChunk.buffer).flatten := by
  unfold concatenateAudioChunks
  rw [insertionSort_eq_of_perm_sorted hd hperm hsorted]

/-- An event-id list that is a permutation of `range n` is pairwise distinct. -/
lemma pairwise_ne_of_ids_perm_range {l : List AudioChunk} {n : Nat}
    (hids : (l.map AudioChunk.eventId).Perm (List.range n)) :
    l.Pairwise (fun a b => a.eventId ≠ b.eventId) := by
  have hnodup : (l.map AudioChunk.eventId).Nodup :=
    hids.nodup_iff.mpr (List.nodup_range n)
  exact List.pairwise_map.mp hnodup

/-- C1: for a pending set whose event ids are the distinct ids `0..n-1` in any
arrival order, a quiet-period flush emits exactly the concatenation of the
chunk payloads in ascending event-id order. -/
theorem flush_emits_sorted_concatenation (n now : Nat) (s : BufferState)
    (srt : List AudioChunk)
    (hids : (s.audioChunks.map AudioChunk.eventId).Perm (List.range n))
    (hperm : s.audioChunks.Perm srt)
    (hsorted : List.Sorted chunkLe srt)
    (hq : 500 ≤ now - s.lastChunkTime)
    (hne : s.audioChunks ≠ [])
    (hnz : (srt.map AudioChunk.buffer).flatten ≠ []) :
    checkAndPlayAudioChunks now s =
      (.resolved ((srt.map AudioChunk.buffer).flatten),
       { s with audioChunks := [], lastEventId := -1 }) := by
  have hconcat : concatenateAudioChunks s.audioChunks =
      (srt.map AudioChunk.buffer).flatten :=
    concatenateAudioChunks_eq_of_perm (pairwise_ne_of_ids_perm_range hids) hperm hsorted
  have hcond : 0 < s.audioChunks.length ∧ 500 ≤ now - s.lastChunkTime :=
    ⟨List.length_pos.mpr hne, hq⟩
  have hlen : 0 < ((srt.map AudioChunk.buffer).flatten).length :=
    List.length_pos.mpr hnz
  simp only [checkAndPlayAudioChunks, if_pos hcond, hconcat, if_pos hlen]

/-- Witness for C1, the spec's scenario: chunks with ids `[2, 0, 1]` carrying
bytes `C`, `A`, `B` (67, 65, 66) flush to `A B C` = `[65, 66, 67]`. -/
theorem flush_emits_sorted_concatenation_witness :
    checkAndPlayAudioChunks 500
        { audioChunks := [{ buffer := [67], eventId := 2 },
                          { buffer := [65], eventId := 0 },
                          { buffer := [66], eventId := 1 }],
          lastEventId := 1, lastChunkTime := 0 } =
      (.resolved [65, 66, 67],
       { audioChunks := [], lastEventId := -1, lastChunkTime := 0 }) :=
  flush_emits_sorted_concatenation 3 500
    { audioChunks := [{ buffer := [67], eventId := 2 },
                      { buffer := [65], eventId := 0 },
                      { buffer := [66], eventId := 1 }],
      lastEventId := 1, lastChunkTime := 0 }
    [{ buffer := [65], eventId := 0 },
     { buffer := [66], eventId := 1 },
     { buffer := [67], eventId := 2 }]
    (by decide) (by decide) (by decide) (by decide) (by decide) (by decide)

/-- A check against an empty pending set never flushes: it only re-arms the
poll timer and leaves the state unchanged. -/
lemma checkAndPlay_empty (m : Nat) (s : BufferState) (h : s.audioChunks = []) :
    checkAndPlayAudioChunks m s = (.rescheduled, s) := by
  have : ¬(0 < s.audioChunks.length ∧ 500 ≤ m - s.lastChunkTime) := by
    rw [h]
    simp
  simp [checkAndPlayAudioChunks, this]

/-- C4: with a non-empty pending set, a check strictly inside the 500 ms quiet
window does not flush and changes nothing, while a check at or past the
threshold flushes exactly once — it empties the pending set, and any further
check after it does not flush. -/
theorem quiet_period_flush (now : Nat) (s : BufferState) (hne : s.audioChunks ≠ []) :
    (now - s.lastChunkTime < 500 →
      checkAndPlayAudioChunks now s = (.rescheduled, s)) ∧
    (500 ≤ now - s.lastChunkTime →
      ((checkAndPlayAudioChunks now s).1.flushes = true ∧
       (checkAndPlayAudioChunks now s).2.audioChunks = [] ∧
       ∀ m, checkAndPlayAudioChunks m (checkAndPlayAudioChunks now s).2 =
         (.rescheduled, (checkAndPlayAudioChunks now s).2))) := by
  constructor
  · intro h
    have hcond : ¬(0 < s.audioChunks.length ∧ 500 ≤ now - s.lastChunkTime) :=
      fun hc => absurd hc.2 (Nat.not_le.mpr h)
    simp [checkAndPlayAudioChunks, hcond]
  · intro h
    have hcond : 0 < s.audioChunks.length ∧ 500 ≤ now - s.lastChunkTime :=
      ⟨List.length_pos.mpr hne, h⟩
    by_cases hb : 0 < (concatenateAudioChunks s.audioChunks).length
    · refine ⟨?_, ?_, ?_⟩
      · simp [checkAndPlayAudioChunks, hcond, hb, FlushOutcome.flushes]
      · simp [checkAndPlayAudioChunks, hcond, hb]
      · intro m
        apply checkAndPlay_empty
        simp [checkAndPlayAudioChunks, hcond, hb]
    · refine ⟨?_, ?_, ?_⟩
      · simp [checkAndPlayAudioChunks, hcond, hb, FlushOutcome.flushes]
      · simp [checkAndPlayAudioChunks, hcond, hb]
      · intro m
        apply checkAndPlay_empty
        simp [checkAndPlayAudioChunks, hcond, hb]

/-- Witness for C4 at a concrete state: one chunk received at time 1000; a
check at 1200 (elapsed 200 ms) does not flush; a check at 1500 (elapsed
500 ms) flushes, empties the set, and a later check at 2000 does not flush
again. -/
theorem quiet_period_flush_witness :
    (checkAndPlayAudioChunks 1200
        { audioChunks := [{ buffer := [65], eventId := 0 }],
          lastEventId := 0, lastChunkTime := 1000 } =
      (.rescheduled,
       { audioChunks := [{ buffer := [65], eventId := 0 }],
         lastEventId := 0, lastChunkTime := 1000 })) ∧
    ((checkAndPlayAudioChunks 1500
        { audioChunks := [{ buffer := [65], eventId := 0 }],
          lastEventId := 0, lastChunkTime := 1000 }).1.flushes = true ∧
     (checkAndPlayAudioChunks 1500
        { audioChunks := [{ buffer := [65], eventId := 0 }],
          lastEventId := 0, lastChunkTime := 1000 }).2.audioChunks = [] ∧
     checkAndPlayAudioChunks 2000
        (checkAndPlayAudioChunks 1500
          { audioChunks := [{ buffer := [65], eventId := 0 }],
            lastEventId := 0, lastChunkTime := 1000 }).2 =
       (.rescheduled,
        (checkAndPlayAudioChunks 1500
          { audioChunks := [{ buffer := [65], eventId := 0 }],
            lastEventId := 0, lastChunkTime := 1000 }).2)) :=
  ⟨(quiet_period_flush 1200
      { audioChunks := [{ buffer := [65], eventId := 0 }],
        lastEventId := 0, lastChunkTime := 1000 } (by decide)).1 (by decide),
   ((quiet_period_flush 1500
      { audioChunks := [{ buffer := [65], eventId := 0 }],
        lastEventId := 0, lastChunkTime := 1000 } (by decide)).2 (by decide)).1,
   ((quiet_period_flush 1500
      { audioChunks := [{ buffer := [65], eventId := 0 }],
        lastEventId := 0, lastChunkTime := 1000 } (by decide)).2 (by decide)).2.1,
   ((quiet_period_flush 1500
      { audioChunks := [{ buffer := [65], eventId := 0 }],
        lastEventId := 0, lastChunkTime := 1000 } (by decide)).2 (by decide)).2.2 2000⟩

/-- C5: a chunk whose decoded payload has zero bytes is dropped by the `audio`
event handler and never enters the pending set; a flush only ever resolves
with a buffer that has at least one byte; and a flush whose concatenation is
empty rejects with the empty-audio error instead of emitting a buffer. -/
theorem empty_audio_handling :
    (∀ now eventId s, handleAudioEvent now eventId [] s = s) ∧
    (∀ now (s : BufferState) b s2,
      checkAndPlayAudioChunks now s = (.resolved b, s2) → 0 < b.length) ∧
    (∀ now (s : BufferState), s.audioChunks ≠ [] → 500 ≤ now - s.lastChunkTime →
      (concatenateAudioChunks s.audioChunks).length = 0 →
      checkAndPlayAudioChunks now s =
        (.rejectedEmpty, { s with audioChunks := [], lastEventId := -1 })) := by
  refine ⟨?_, ?_, ?_⟩
  · intro now eventId s
    simp [handleAudioEvent]
  · intro now s b s2 h
    by_cases hcond : 0 < s.audioChunks.length ∧ 500 ≤ now - s.lastChunkTime
    · by_cases hb : 0 < (concatenateAudioChunks s.audioChunks).length
      · simp only [checkAndPlayAudioChunks, if_pos hcond, if_pos hb,
          Prod.mk.injEq, FlushOutcome.resolved.injEq] at h
        exact h.1 ▸ hb
      · simp [checkAndPlayAudioChunks, hcond, hb] at h
    · simp [checkAndPlayAudioChunks, hcond] at h
  · intro now s hne hq hzero
    have hcond : 0 < s.audioChunks.length ∧ 500 ≤ now - s.lastChunkTime :=
      ⟨List.length_pos.mpr hne, hq⟩
    have hb : ¬ 0 < (concatenateAudioChunks s.audioChunks).length := by
      rw [hzero]
      simp
    simp [checkAndPlayAudioChunks, hcond, hb]

/-- Witness for C5: the empty payload is dropped; a concrete resolved flush
has a positive byte count; and a pending set holding only a zero-byte chunk
(a state the handler itself never builds) is rejected as empty audio. -/
theorem empty_audio_handling_witness :
    handleAudioEvent 7 4 [] { audioChunks := [], lastEventId := -1, lastChunkTime := 0 } =
      { audioChunks := [], lastEventId := -1, lastChunkTime := 0 } ∧
    0 < ([65] : List Nat).length ∧
    checkAndPlayAudioChunks 500
        { audioChunks := [{ buffer := [], eventId := 0 }],
          lastEventId := 0, lastChunkTime := 0 } =
      (.rejectedEmpty, { audioChunks := [], lastEventId := -1, lastChunkTime := 0 }) :=
  ⟨empty_audio_handling.1 7 4 { audioChunks := [], lastEventId := -1, lastChunkTime := 0 },
   empty_audio_handling.2.1 500
     { audioChunks := [{ buffer := [65], eventId := 0 }],
       lastEventId := 0, lastChunkTime := 0 }
     [65] { audioChunks := [], lastEventId := -1, lastChunkTime := 0 } (by decide),
   empty_audio_handling.2.2 500
     { audioChunks := [{ buffer := [], eventId := 0 }],
       lastEventId := 0, lastChunkTime := 0 } (by decide) (by decide) (by decide)⟩

/-- Outcome of the `interruption` branch of the `onmessage` handler. -/
inductive InterruptionOutcome where
  | rejectedInterrupted
  | flushCheck (r : FlushOutcome)
  | ignored
deriving DecidableEq

/-- The `interruption` branch of the WebSocket `onmessage` handler: when a
request is pending (`currentReject` is set), reject it only if no audio chunks
were buffered; otherwise invoke `checkAndPlayAudioChunks` to play what was
already received.  With no pending request the event changes nothing.  (The
interruption reason string only flows into the rejection message and is not
modelled.) -/
def handleInterruption (now : Nat) (hasPendingReject : Bool) (s : BufferState) :
    InterruptionOutcome × BufferState :=
  if hasPendingReject then
    if s.audioChunks.length = 0 then
      (.rejectedInterrupted, s)
    else
      let r := checkAndPlayAudioChunks now s
      (.flushCheck r.1, r.2)
  else
    (.ignored, s)

/-- C6: an interruption that arrives while at least one chunk is buffered
never rejects the pending request; if the quiet window has elapsed and the
accumulated bytes are non-empty it resolves the request with the concatenation
of the already-buffered chunks (emptying the set).  Only an interruption with
zero buffered chunks rejects the pending request. -/
theorem interruption_salvages_buffered_audio (now : Nat) (s : BufferState) :
    (s.audioChunks ≠ [] →
      ((handleInterruption now true s).1 ≠ .rejectedInterrupted ∧
       (500 ≤ now - s.lastChunkTime → concatenateAudioChunks s.audioChunks ≠ [] →
         handleInterruption now true s =
           (.flushCheck (.resolved (concatenateAudioChunks s.audioChunks)),
            { s with audioChunks := [], lastEventId := -1 })))) ∧
    (s.audioChunks = [] →
      handleInterruption now true s = (.rejectedInterrupted, s)) := by
  constructor
  · intro hne
    have hlen : ¬ s.audioChunks.length = 0 := by
      simpa using hne
    constructor
    · simp only [handleInterruption, if_pos rfl, if_neg hlen]
      cases hP : (checkAndPlayAudioChunks now s).1 <;> simp
    · intro hq hnz
      have hcond : 0 < s.audioChunks.length ∧ 500 ≤ now - s.lastChunkTime :=
        ⟨List.length_pos.mpr hne, hq⟩
      have hb : 0 < (concatenateAudioChunks s.audioChunks).length :=
        List.length_pos.mpr hnz
      simp [handleInterruption, hlen, checkAndPlayAudioChunks, hcond, hb]
  · intro hempty
    simp [handleInterruption, hempty]

/-- Witness for C6, the spec's scenario: an interruption after 2 chunks have
been buffered (quiet window already elapsed) resolves the pending request with
the 2-chunk concatenation; an interruption with an empty buffer rejects. -/
theorem interruption_salvages_buffered_audio_witness :
    ((handleInterruption 500 true
        { audioChunks := [{ buffer := [65], eventId := 0 },
                          { buffer := [66], eventId := 1 }],
          lastEventId := 1, lastChunkTime := 0 }).1 ≠ .rejectedInterrupted ∧
     handleInterruption 500 true
        { audioChunks := [{ buffer := [65], eventId := 0 },
                          { buffer := [66], eventId := 1 }],
          lastEventId := 1, lastChunkTime := 0 } =
       (.flushCheck (.resolved [65, 66]),
        { audioChunks := [], lastEventId := -1, lastChunkTime := 0 })) ∧
    handleInterruption 500 true
        { audioChunks := [], lastEventId := -1, lastChunkTime := 0 } =
      (.rejectedInterrupted, { audioChunks := [], lastEventId := -1, lastChunkTime := 0 }) :=
  ⟨⟨((interruption_salvages_buffered_audio 500
       { audioChunks := [{ buffer := [65], eventId := 0 },
                         { buffer := [66], eventId := 1 }],
         lastEventId := 1, lastChunkTime := 0 }).1 (by decide)).1,
    ((interruption_salvages_buffered_audio 500
       { audioChunks := [{ buffer := [65], eventId := 0 },
                         { buffer := [66], eventId := 1 }],
         lastEventId := 1, lastChunkTime := 0 }).1 (by decide)).2 (by decide) (by decide)⟩,
   (interruption_salvages_buffered_audio 500
      { audioChunks := [], lastEventId := -1, lastChunkTime := 0 }).2 rfl⟩

/-- Pending-request slot of the service: `currentResolve`/`currentReject`
always hold the handlers of one request, identified here by a request id;
`none` models both fields being null. -/
structure RequestState where
  currentRequest : Option Nat
deriving DecidableEq

/-- Outcome of a `sendMessage` call on the conversational-AI path:
the promise stays pending awaiting a burst, or is rejected at once because the
socket is not open/initialized.  `busyError` is the rejection the spec
prescribes for a concurrent call; it is included so the code's behaviour can
be compared against it. -/
inductive SendOutcome where
  | pending
  | rejectedNotConnected
  | busyError
deriving DecidableEq

/-- `sendMessage` (ElevenLabsService, conversational-AI path): the promise
executor first stores the new call's resolve/reject into
`currentResolve`/`currentReject` — unconditionally, with no check of any
already-pending request — and then either sends the message (socket open and
initialized) or rejects the new promise. -/
def sendMessage (reqId : Nat) (wsOpenAndInitialized : Bool) (_s : RequestState) :
    SendOutcome × RequestState :=
  let s2 : RequestState := { currentRequest := some reqId }
  if wsOpenAndInitialized then (.pending, s2) else (.rejectedNotConnected, s2)

/-- Restatement of the claimed `sendMessage` contract in the spec's words, for
comparison with `sendMessage`: reject immediately with the busy error while a
prior call is pending, leaving the pending call untouched. -/
def sendMessageBusyContract (reqId : Nat) (wsOpenAndInitialized : Bool)
    (s : RequestState) : SendOutcome × RequestState :=
  if s.currentRequest.isSome then (.busyError, s)
  else sendMessage reqId wsOpenAndInitialized s

/-- Counterexample to C2: with request 0 still pending, a second `sendMessage`
(request 1) is not rejected with the busy error — it proceeds and overwrites
the stored handlers with its own, so the first call can no longer be resolved
by the audio path; the claimed contract would instead reject the second call
and keep request 0 pending. -/
theorem sendMessage_busy_counterexample :
    sendMessage 1 true { currentRequest := some 0 } =
      (.pending, { currentRequest := some 1 }) ∧
    (sendMessage 1 true { currentRequest := some 0 }).1 ≠ .busyError ∧
    (sendMessage 1 true { currentRequest := some 0 }).2 ≠ { currentRequest := some 0 } ∧
    sendMessageBusyContract 1 true { currentRequest := some 0 } =
      (.busyError, { currentRequest := some 0 }) := by
  decide

/-- C2 as amended: `sendMessage` performs no busy check — no call ever rejects
with a busy error, and every call (pending or not, connected or not)
overwrites the stored resolve/reject handlers with its own, discarding the
previous pending call's handlers. -/
theorem sendMessage_overwrites_pending (reqId : Nat) (wsOpenAndInitialized : Bool)
    (s : RequestState) :
    (sendMessage reqId wsOpenAndInitialized s).1 ≠ .busyError ∧
    (sendMessage reqId wsOpenAndInitialized s).2 = { currentRequest := some reqId } := by
  cases wsOpenAndInitialized <;> simp [sendMessage]

/-- `maxReconnectAttempts` field of the service. -/
def maxReconnectAttempts : Nat := 3

/-- Backoff delay (ms) before reconnect attempt `attempt`, from
`Math.min(1000 * Math.pow(2, this.reconnectAttempts - 1), 5000)` computed
after the increment. -/
def reconnectDelay (attempt : Nat) : Nat :=
  min (1000 * 2 ^ (attempt - 1)) 5000

/-- Reconnect-relevant state of the service. -/
structure ConnState where
  reconnectAttempts : Nat
  isReconnecting : Bool
deriving DecidableEq

/-- Outcome of one `reconnect()` call: skipped by the `isReconnecting` guard,
aborted with the max-attempts error, or an actual attempt after the backoff
delay. -/
inductive ReconnectOutcome where
  | skipped
  | exhausted
  | attempted (delayMs : Nat)
deriving DecidableEq

/-- `reconnect` (ElevenLabsService): return early while already reconnecting;
otherwise increment the attempt counter, throw the max-attempts error when the
incremented counter exceeds the budget, and otherwise wait the exponential
backoff delay and retry `setupWebSocket`.  The `finally` block clears
`isReconnecting` on every path that runs the body. -/
def reconnect (s : ConnState) : ReconnectOutcome × ConnState :=
  if s.isReconnecting then (.skipped, s)
  else
    let attempts := s.reconnectAttempts + 1
    if maxReconnectAttempts < attempts then
      (.exhausted, { reconnectAttempts := attempts, isReconnecting := false })
    else
      (.attempted (reconnectDelay attempts),
       { reconnectAttempts := attempts, isReconnecting := false })

/-- The WebSocket normal-closure status code, against which the `onclose`
handler compares `event.code`. -/
def normalClosureCode : Nat := 1000

/-- The `onclose` handler: reconnect only when the close was not a normal
closure (`event.code !== 1000`), no reconnect is already running, and the
attempt budget is not exhausted.  The first component reports whether (and
how) `reconnect()` was invoked. -/
def onCloseStep (code : Nat) (s : ConnState) : Option ReconnectOutcome × ConnState :=
  if code ≠ normalClosureCode ∧ s.isReconnecting = false ∧
      s.reconnectAttempts < maxReconnectAttempts then
    let r := reconnect s
    (some r.1, r.2)
  else
    (none, s)

/-- The `onopen` handler: clears `isReconnecting` and resets
`reconnectAttempts` to zero. -/
def onOpenStep (_s : ConnState) : ConnState :=
  { reconnectAttempts := 0, isReconnecting := false }

/-- Runs a sequence of close events through the `onclose` handler, counting
how many of them invoked `reconnect()`. -/
def runCloses (codes : List Nat) (s : ConnState) : Nat × ConnState :=
  match codes with
  | [] => (0, s)
  | c :: cs =>
    let r := onCloseStep c s
    let rest := runCloses cs r.2
    ((if r.1.isSome then 1 else 0) + rest.1, rest.2)

/-- Case analysis of one `onclose` step: either the guard blocks and nothing
changes, or the guard passes and `reconnect` performs an actual backoff
attempt with the counter incremented. -/
lemma onCloseStep_cases (code : Nat) (s : ConnState) :
    onCloseStep code s = (none, s) ∨
    (s.reconnectAttempts < maxReconnectAttempts ∧ s.isReconnecting = false ∧
     onCloseStep code s =
       (some (.attempted (reconnectDelay (s.reconnectAttempts + 1))),
        { reconnectAttempts := s.reconnectAttempts + 1, isReconnecting := false })) := by
  by_cases h : code ≠ normalClosureCode ∧ s.isReconnecting = false ∧
      s.reconnectAttempts < maxReconnectAttempts
  · right
    refine ⟨h.2.2, h.2.1, ?_⟩
    have hnotover : ¬ maxReconnectAttempts < s.reconnectAttempts + 1 :=
      Nat.not_lt.mpr h.2.2
    simp [onCloseStep, h, reconnect, h.2.1, hnotover]
  · left
    simp [onCloseStep, h]

/-- The number of `reconnect()` invocations over any run of close events is
bounded by the remaining attempt budget. -/
lemma runCloses_le (codes : List Nat) (s : ConnState) :
    (runCloses codes s).1 ≤ maxReconnectAttempts - s.reconnectAttempts := by
  induction codes generalizing s with
  | nil => simp [runCloses]
  | cons c cs ih =>
    rcases onCloseStep_cases c s with h | ⟨hlt, _, h⟩
    · have := ih s
      simp only [runCloses, h]
      simpa using this
    · have hrec := ih { reconnectAttempts := s.reconnectAttempts + 1, isReconnecting := false }
      dsimp only at hrec
      simp only [runCloses, h, Option.isSome_some, if_true]
      omega

/-- Counterexample to C3's error-surfacing conjunct: with the attempt budget
already exhausted (3 attempts) and no reconnect running, a further abnormal
close (code 1006) invokes nothing — no reconnect and no surfaced error — and a
run of four straight abnormal closes from a fresh state performs exactly 3
attempts with the fourth close silently ignored. -/
theorem reconnect_exhaustion_silent_counterexample :
    onCloseStep 1006 { reconnectAttempts := 3, isReconnecting := false } =
      (none, { reconnectAttempts := 3, isReconnecting := false }) ∧
    (runCloses [1006, 1006, 1006, 1006]
        { reconnectAttempts := 0, isReconnecting := false }).1 = 3 ∧
    (runCloses [1006, 1006, 1006, 1006]
        { reconnectAttempts := 0, isReconnecting := false }).2 =
      { reconnectAttempts := 3, isReconnecting := false } := by
  decide

/-- C3 as amended: after an abnormal disconnect at most `maxReconnectAttempts`
(3) reconnection attempts are made; the backoff delay before attempt k equals
1000·2^(k−1) ms capped at 5000 (uncapped for k ≤ 3), and successive delays are
strictly increasing within the budget; but exhausting the budget surfaces no
error at all — once the counter reaches the maximum the `onclose` handler
ignores further abnormal closes, so the max-attempts error inside
`reconnect()` is never raised by the handler: every invocation it makes is an
actual backoff attempt. -/
theorem reconnect_bounded_backoff :
    (∀ codes (s : ConnState),
      (runCloses codes s).1 ≤ maxReconnectAttempts - s.reconnectAttempts) ∧
    (∀ k, 1 ≤ k → k ≤ maxReconnectAttempts →
      reconnectDelay k = 1000 * 2 ^ (k - 1)) ∧
    (∀ k, 1 ≤ k → k < maxReconnectAttempts →
      reconnectDelay k < reconnectDelay (k + 1)) ∧
    (∀ code (s : ConnState), maxReconnectAttempts ≤ s.reconnectAttempts →
      onCloseStep code s = (none, s)) ∧
    (∀ code (s : ConnState) r s2, onCloseStep code s = (some r, s2) →
      r = .attempted (reconnectDelay (s.reconnectAttempts + 1)) ∧ r ≠ .exhausted) := by
  refine ⟨runCloses_le, ?_, ?_, ?_, ?_⟩
  · intro k h1 h2
    simp only [maxReconnectAttempts] at h2
    interval_cases k <;> decide
  · intro k h1 h2
    simp only [maxReconnectAttempts] at h2
    interval_cases k <;> decide
  · intro code s h
    have hcond : ¬(code ≠ normalClosureCode ∧ s.isReconnecting = false ∧
        s.reconnectAttempts < maxReconnectAttempts) :=
      fun hc => absurd hc.2.2 (Nat.not_lt.mpr h)
    simp [onCloseStep, hcond]
  · intro code s r s2 h
    rcases onCloseStep_cases code s with hcase | ⟨_, _, hcase⟩
    · rw [hcase] at h
      exact absurd (congrArg Prod.fst h) (by simp)
    · rw [hcase] at h
      have hr : r = .attempted (reconnectDelay (s.reconnectAttempts + 1)) := by
        have := congrArg Prod.fst h
        simpa using this.symm
      exact ⟨hr, by simp [hr]⟩

/-- Witness for C3 (amended), instantiating every hypothesis: the 4-close run
from a fresh state stays within the budget of 3; the delay before attempt 2 is
2000 ms; delay 1 (1000 ms) is strictly below delay 2; an exhausted state
ignores an abnormal close; and the invocation recorded for a first abnormal
close is the 1000 ms backoff attempt, not the exhaustion error. -/
theorem reconnect_bounded_backoff_witness :
    (runCloses [1006, 1006, 1006, 1006]
        { reconnectAttempts := 0, isReconnecting := false }).1 ≤
      maxReconnectAttempts - 0 ∧
    reconnectDelay 2 = 1000 * 2 ^ 1 ∧
    reconnectDelay 1 < reconnectDelay 2 ∧
    onCloseStep 1001 { reconnectAttempts := 3, isReconnecting := false } =
      (none, { reconnectAttempts := 3, isReconnecting := false }) ∧
    (ReconnectOutcome.attempted (reconnectDelay 1) =
        .attempted (reconnectDelay (0 + 1)) ∧
     ReconnectOutcome.attempted (reconnectDelay 1) ≠ .exhausted) :=
  ⟨reconnect_bounded_backoff.1 [1006, 1006, 1006, 1006]
      { reconnectAttempts := 0, isReconnecting := false },
   reconnect_bounded_backoff.2.1 2 (by decide) (by decide),
   reconnect_bounded_backoff.2.2.1 1 (by decide) (by decide),
   reconnect_bounded_backoff.2.2.2.1 1001
      { reconnectAttempts := 3, isReconnecting := false } (by decide),
   reconnect_bounded_backoff.2.2.2.2 1005
      { reconnectAttempts := 0, isReconnecting := false }
      (.attempted (reconnectDelay 1))
      { reconnectAttempts := 1, isReconnecting := false } (by decide)⟩

/-- The close code observed by the `onclose` handler after `clearConversation`
runs `this.ws.close()`: `close()` is invoked with no status code, and for a
code-less close the WebSocket platform reports `CloseEvent.code = 1005`
(No Status Received), not 1000. -/
def clearConversationCloseCode : Nat := 1005

/-- C9 (code bug): `clearConversation` — the caller-initiated termination —
closes the socket without a status code, so the resulting close event carries
code 1005; since the `onclose` handler skips reconnection only for code 1000,
a fresh-session explicit termination does schedule a reconnect attempt.  The
second conjunct shows the handler does distinguish the normal-closure code:
an actual code-1000 close triggers nothing. -/
theorem clearConversation_triggers_reconnect :
    (onCloseStep clearConversationCloseCode
        { reconnectAttempts := 0, isReconnecting := false }).1 =
      some (.attempted (reconnectDelay 1)) ∧
    (onCloseStep normalClosureCode
        { reconnectAttempts := 0, isReconnecting := false }).1 = none := by
  decide

/-- C10: every successful socket open resets the reconnect counter to zero and
clears the reconnecting flag, so the attempt budget is per disconnect episode:
after any open, a run of abnormal closes can again make up to 3 attempts —
and concretely two episodes separated by an open make 3 + 3 = 6 attempts in
total, exceeding the per-episode budget. -/
theorem onOpen_resets_reconnect_budget :
    (∀ s, onOpenStep s = { reconnectAttempts := 0, isReconnecting := false }) ∧
    (∀ codes s, (runCloses codes (onOpenStep s)).1 ≤ maxReconnectAttempts) ∧
    ((runCloses [1006, 1006, 1006]
        { reconnectAttempts := 0, isReconnecting := false }).1 = 3 ∧
     (runCloses [1006, 1006, 1006]
        (onOpenStep (runCloses [1006, 1006, 1006]
          { reconnectAttempts := 0, isReconnecting := false }).2)).1 = 3) := by
  refine ⟨fun s => rfl, ?_, by decide⟩
  intro codes s
  have := runCloses_le codes (onOpenStep s)
  simpa [onOpenStep] using this

/-- One entry of the structured transcript returned by the conversation
details endpoint. -/
structure TranscriptTurn where
  role : String
  message : String
deriving DecidableEq

/-- State of a `ConversationService` instance relevant to `endConversation`:
whether `this.conversation` is non-null, the stored conversation id, the
active flag, the locally accumulated transcript, and the buffered current
user response. -/
structure ConvState where
  hasConversation : Bool
  conversationId : Option String
  isActive : Bool
  transcript : String
  currentUserResponse : String
deriving DecidableEq

/-- The errors `endConversation` can throw (the strings in the source are
the corresponding `Error` messages): `noConversationId` is
"No conversation ID available", `notActive` is "Conversation is not active",
`audioFetchFailed` is the "Failed to get audio" path and `detailsFetchFailed`
the "Failed to get conversation details" path. -/
inductive EndError where
  | noConversationId
  | notActive
  | audioFetchFailed
  | detailsFetchFailed
deriving DecidableEq

/-- Result of `endConversation`: the `{ audio, transcript }` object, the
literal `null` return, or a thrown error. -/
inductive EndOutcome where
  | artifacts (audio : List Nat) (transcript : String)
  | nullResult
  | errored (e : EndError)
deriving DecidableEq

/-- `cleanup()` of ConversationService: nulls `conversation` and
`conversationId` and clears `isActive` (the transcript fields are kept). -/
def cleanupState (s : ConvState) : ConvState :=
  { s with hasConversation := false, conversationId := none, isActive := false }

/-- Formats one structured-transcript turn, from
`t.role === 'user' ? 'User' : 'AI'` plus the message. -/
def formatTurn (t : TranscriptTurn) : String :=
  (if t.role = "user" then "User" else "AI") ++ ": " ++ t.message

/-- The `.join('\n')` over the formatted turns. -/
def joinLines : List String → String
  | [] => ""
  | [t] => t
  | t :: ts => t ++ "\n" ++ joinLines ts

/-- The transcript string built from the details fetch:
`details.transcript.map(...).join('\n')`. -/
def formatFullTranscript (turns : List TranscriptTurn) : String :=
  joinLines (turns.map formatTurn)

/-- `endConversation` (ConversationService).  The two HTTP artifact fetches
are passed in as parameters: `audioFetch` is the final-audio request (`none`
models a non-ok response) and `detailsFetch` the conversation-details request.
Faithful to the source: a missing conversation id throws, an inactive session
throws, fetch failures throw (the `catch` block runs `cleanup()` and
re-throws), and `null` is returned only when `this.conversation` is already
null while the id and active flag are still set.  Before closing, a non-empty
`currentUserResponse` is appended to the local transcript; that local
transcript is never part of the returned artifacts. -/
def endConversation (audioFetch : Option (List Nat))
    (detailsFetch : Option (List TranscriptTurn)) (s : ConvState) :
    EndOutcome × ConvState :=
  if s.conversationId = none then
    (.errored .noConversationId, cleanupState s)
  else if s.isActive = false then
    (.errored .notActive, cleanupState s)
  else if s.hasConversation then
    let t := if s.currentUserResponse ≠ "" then
        s.transcript ++ s.currentUserResponse ++ "\n"
      else s.transcript
    let s1 : ConvState :=
      { s with transcript := t, isActive := false, hasConversation := false }
    match audioFetch with
    | none => (.errored .audioFetchFailed, cleanupState s1)
    | some audioBlob =>
      match detailsFetch with
      | none => (.errored .detailsFetchFailed, cleanupState s1)
      | some turns =>
        (.artifacts audioBlob (formatFullTranscript turns),
         { s1 with conversationId := none })
  else
    (.nullResult, s)

/-- A concrete conversation id for concrete instances. -/
def convIdZ : String := "conv-1"

/-- A concrete locally accumulated transcript for concrete instances. -/
def localT : String := "AI: hello"

/-- Counterexample to C7: with no session ever started (no conversation id),
`endConversation` throws "No conversation ID available" instead of returning
null; and after a first fully successful close, a second invocation also
throws instead of being a no-op. -/
theorem endConversation_counterexample :
    endConversation none none
        { hasConversation := false, conversationId := none, isActive := false,
          transcript := "", currentUserResponse := "" } =
      (.errored .noConversationId,
       { hasConversation := false, conversationId := none, isActive := false,
         transcript := "", currentUserResponse := "" }) ∧
    (endConversation none none
        { hasConversation := false, conversationId := none, isActive := false,
          transcript := "", currentUserResponse := "" }).1 ≠ .nullResult ∧
    endConversation (some [1]) (some [])
        { hasConversation := true, conversationId := some convIdZ, isActive := true,
          transcript := "", currentUserResponse := "" } =
      (.artifacts [1] "",
       { hasConversation := false, conversationId := none, isActive := false,
         transcript := "", currentUserResponse := "" }) ∧
    endConversation (some [1]) (some [])
        { hasConversation := false, conversationId := none, isActive := false,
          transcript := "", currentUserResponse := "" } =
      (.errored .noConversationId,
       { hasConversation := false, conversationId := none, isActive := false,
         transcript := "", currentUserResponse := "" }) := by
  decide

/-- C7 as amended: `endConversation` throws "No conversation ID available"
(after cleanup) whenever no conversation id is stored — in particular when no
session was ever active, where the claim expected `null` — and after a first
successful close (which clears the id) a second invocation throws the same
error rather than being a no-op. -/
theorem endConversation_no_session_throws (a : Option (List Nat))
    (d : Option (List TranscriptTurn)) (s : ConvState) :
    (s.conversationId = none →
      endConversation a d s = (.errored .noConversationId, cleanupState s)) ∧
    (∀ blob tr s2, endConversation a d s = (.artifacts blob tr, s2) →
      ∀ a2 d2, endConversation a2 d2 s2 = (.errored .noConversationId, cleanupState s2)) := by
  constructor
  · intro h
    simp [endConversation, h]
  · intro blob tr s2 h a2 d2
    have hid : s2.conversationId = none := by
      by_cases h1 : s.conversationId = none
      · simp [endConversation, h1] at h
      · by_cases h2 : s.isActive = false
        · simp [endConversation, h1, h2] at h
        · by_cases h3 : s.hasConversation
          · cases a with
            | none => simp [endConversation, h1, h2, h3] at h
            | some ab =>
              cases d with
              | none => simp [endConversation, h1, h2, h3] at h
              | some turns =>
                simp only [endConversation, if_neg h1, if_neg h2, if_pos h3,
                  Prod.mk.injEq, EndOutcome.artifacts.injEq] at h
                rw [← h.2]
          · simp [endConversation, h1, h2, h3] at h
    simp [endConversation, hid]

/-- Witness for C7 (amended) at concrete inputs: a fresh instance throws, and
a successful close followed by a second call throws. -/
theorem endConversation_no_session_throws_witness :
    endConversation none none
        { hasConversation := false, conversationId := none, isActive := false,
          transcript := "", currentUserResponse := "" } =
      (.errored .noConversationId,
       cleanupState
         { hasConversation := false, conversationId := none, isActive := false,
           transcript := "", currentUserResponse := "" }) ∧
    endConversation none none
        { hasConversation := false, conversationId := none, isActive := false,
          transcript := "", currentUserResponse := "" } =
      (.errored .noConversationId,
       cleanupState
         { hasConversation := false, conversationId := none, isActive := false,
           transcript := "", currentUserResponse := "" }) :=
  ⟨(endConversation_no_session_throws none none
      { hasConversation := false, conversationId := none, isActive := false,
        transcript := "", currentUserResponse := "" }).1 rfl,
   (endConversation_no_session_throws (some [1]) (some [])
      { hasConversation := true, conversationId := some convIdZ, isActive := true,
        transcript := "", currentUserResponse := "" }).2
     [1] ""
     { hasConversation := false, conversationId := none, isActive := false,
       transcript := "", currentUserResponse := "" }
     (by decide) none none⟩

/-- Counterexample to C8: on an active session whose local transcript is
non-empty, a failing audio fetch (and likewise a failing details fetch) makes
`endConversation` throw after cleanup — the locally accumulated transcript is
not returned as a degraded result. -/
theorem endConversation_fetch_failure_counterexample :
    endConversation none (some [])
        { hasConversation := true, conversationId := some convIdZ, isActive := true,
          transcript := localT, currentUserResponse := "" } =
      (.errored .audioFetchFailed,
       { hasConversation := false, conversationId := none, isActive := false,
         transcript := localT, currentUserResponse := "" }) ∧
    endConversation (some [1]) none
        { hasConversation := true, conversationId := some convIdZ, isActive := true,
          transcript := localT, currentUserResponse := "" } =
      (.errored .detailsFetchFailed,
       { hasConversation := false, conversationId := none, isActive := false,
         transcript := localT, currentUserResponse := "" }) := by
  decide

/-- C8 as amended: if, after the graceful close of an active session, the
final-audio fetch or the conversation-details fetch fails, `endConversation`
does not degrade to the locally accumulated data — it runs `cleanup()` and
throws the corresponding error, discarding the local transcript from the
result. -/
theorem endConversation_fetch_failure_throws (s : ConvState) (b : List Nat)
    (d : Option (List TranscriptTurn))
    (hid : s.conversationId ≠ none) (hact : s.isActive = true)
    (hconv : s.hasConversation = true) :
    (endConversation none d s).1 = .errored .audioFetchFailed ∧
    (endConversation (some b) none s).1 = .errored .detailsFetchFailed := by
  constructor
  · simp [endConversation, hid, hact, hconv]
  · simp [endConversation, hid, hact, hconv]

/-- Witness for C8 (amended) at a concrete active session. -/
theorem endConversation_fetch_failure_throws_witness :
    (endConversation none (some [])
        { hasConversation := true, conversationId := some convIdZ, isActive := true,
          transcript := localT, currentUserResponse := "" }).1 =
      .errored .audioFetchFailed ∧
    (endConversation (some [2, 3]) none
        { hasConversation := true, conversationId := some convIdZ, isActive := true,
          transcript := localT, currentUserResponse := "" }).1 =
      .errored .detailsFetchFailed :=
  ⟨(endConversation_fetch_failure_throws
      { hasConversation := true, conversationId := some convIdZ, isActive := true,
        transcript := localT, currentUserResponse := "" }
      [2, 3] (some []) (by decide) rfl rfl).1,
   (endConversation_fetch_failure_throws
      { hasConversation := true, conversationId := some convIdZ, isActive := true,
        transcript := localT, currentUserResponse := "" }
      [2, 3] (some []) (by decide) rfl rfl).2⟩

end InterviewBot
